import Mathlib

/-!
Verification of the DC Happy Hour Tracker (`tracker.py`) against its
natural-language specification.

The program is shallowly embedded: Python strings become `String`, Python
floats become `Rat` (only order comparisons occur, and the decimal literals
used here are compared exactly as their float counterparts would be),
`datetime.time` values become seconds-since-midnight (`Nat`; Python compares
time objects lexicographically on (hour, minute, second), which this ordering
reflects), and fallible Python code becomes `Except PyErr`.  The reference
instant of `is_open_now` (Python reads `datetime.now()`) is passed explicitly
as a weekday number (Monday = 0) and a time of day.
-/

/-- Python exception classes that the embedded code can raise. -/
inductive PyErr where
  | typeError
  | keyError
  | valueError
  | decodeError
deriving DecidableEq

/-- Embedding of `str.lower` (all strings in play are ASCII). -/
def str_lower (s : String) : String := String.mk (s.data.map Char.toLower)

/-- Test whether `needle` matches at the head of `hay`. -/
def chars_match : List Char → List Char → Bool
  | [], _ => true
  | _ :: _, [] => false
  | a :: as, b :: bs => a == b && chars_match as bs

/-- Test whether `needle` occurs as a contiguous substring of `hay`:
Python's `needle in hay` on strings. -/
def has_sub (needle : List Char) : List Char → Bool
  | [] => chars_match needle []
  | c :: rest => chars_match needle (c :: rest) || has_sub needle rest

/-- Python `needle in hay` for `String`. -/
def str_has (hay needle : String) : Bool := has_sub needle.data hay.data

/-- The `day_mapping` dict of `_is_valid_day` (insertion order preserved). -/
def day_mapping : List (String × Nat) :=
  [("mon", 0), ("tue", 1), ("wed", 2), ("thu", 3), ("fri", 4), ("sat", 5), ("sun", 6)]

/-- Embedding of `HappyHourVenue._is_valid_day` (tracker.py lines 61-82):
day-rule text matching against a weekday number (Monday = 0). -/
def is_valid_day (happy_hour_days : String) (day : Nat) : Bool :=
  let days_str := str_lower happy_hour_days
  if str_has days_str "mon-fri" || str_has days_str "monday-friday" then
    decide (0 ≤ day ∧ day ≤ 4)
  else if str_has days_str "daily" || str_has days_str "every day" then
    true
  else if str_has days_str "weekend" then
    day == 5 || day == 6
  else
    day_mapping.any (fun p => str_has days_str p.1 && p.2 == day)

/-- AM/PM marker (the regex groups 3 and 6, already upcased). -/
inductive Period where
  | am
  | pm
deriving DecidableEq

/-- Numeric value of a digit character. -/
def digit_val (c : Char) : Nat := c.toNat - 48

/-- Match `:(\d{2})` — a colon followed by exactly two digit characters —
returning the minutes value and the rest of the input. -/
def match_colon_mm : List Char → Option (Nat × List Char)
  | ':' :: d1 :: d2 :: rest =>
    if d1.isDigit && d2.isDigit then some (10 * digit_val d1 + digit_val d2, rest)
    else none
  | _ => none

/-- Match `(\d{1,2}):(\d{2})`.  The hour quantifier is greedy: two digits are
tried first and the engine backtracks to one digit if the colon then fails,
exactly as Python's `re` does. -/
def match_hmm (l : List Char) : Option (Nat × Nat × List Char) :=
  match l with
  | [] => none
  | c1 :: rest =>
    if c1.isDigit then
      match rest with
      | [] => none
      | c2 :: rest2 =>
        if c2.isDigit then
          match match_colon_mm rest2 with
          | some (m, r) => some (10 * digit_val c1 + digit_val c2, m, r)
          | none =>
            match match_colon_mm rest with
            | some (m, r) => some (digit_val c1, m, r)
            | none => none
        else
          match match_colon_mm rest with
          | some (m, r) => some (digit_val c1, m, r)
          | none => none
    else none

/-- Python regex `\s` over ASCII input. -/
def is_space (c : Char) : Bool :=
  c == ' ' || c == '\t' || c == '\n' || c == '\r' || c == '\x0b' || c == '\x0c'

/-- Greedy `\s*`.  The characters that can follow it in the pattern
(`A`, `P`, `-`, digits) are never whitespace, so no backtracking is needed. -/
def skip_ws (l : List Char) : List Char := l.dropWhile is_space

/-- Case-insensitive `(AM|PM)` (the pattern is compiled with `re.IGNORECASE`). -/
def match_period : List Char → Option (Period × List Char)
  | c1 :: c2 :: rest =>
    if (c1 == 'A' || c1 == 'a') && (c2 == 'M' || c2 == 'm') then some (Period.am, rest)
    else if (c1 == 'P' || c1 == 'p') && (c2 == 'M' || c2 == 'm') then some (Period.pm, rest)
    else none
  | _ => none

/-- The six captured groups of the time-range pattern
`(\d{1,2}):(\d{2})\s*(AM|PM)\s*-\s*(\d{1,2}):(\d{2})\s*(AM|PM)`. -/
structure RawMatch where
  h1 : Nat
  m1 : Nat
  p1 : Period
  h2 : Nat
  m2 : Nat
  p2 : Period
deriving DecidableEq

/-- Try to match the whole time-range pattern at the start of the input. -/
def match_at (l : List Char) : Option RawMatch :=
  match match_hmm l with
  | none => none
  | some (h1, m1, r1) =>
    match match_period (skip_ws r1) with
    | none => none
    | some (p1, r2) =>
      match skip_ws r2 with
      | '-' :: r3 =>
        match match_hmm (skip_ws r3) with
        | none => none
        | some (h2, m2, r4) =>
          match match_period (skip_ws r4) with
          | none => none
          | some (p2, _) => some ⟨h1, m1, p1, h2, m2, p2⟩
      | _ => none

/-- Embedding of `re.search`: the match at the leftmost possible start
position wins. -/
def search_from : List Char → Option RawMatch
  | [] => none
  | c :: rest =>
    match match_at (c :: rest) with
    | some r => some r
    | none => search_from rest

/-- Twelve-hour to 24-hour conversion (tracker.py lines 96-105):
PM adds 12 unless the hour is already 12; hour 12 on AM becomes 0. -/
def to_24 (h : Nat) (p : Period) : Nat :=
  if p = Period.pm ∧ h ≠ 12 then h + 12
  else if p = Period.am ∧ h = 12 then 0
  else h

/-- A time of day in seconds since midnight. -/
def time_of_day (h m : Nat) : Nat := 3600 * h + 60 * m

/-- The `datetime.time(h, m)` constructor: raises `ValueError` unless
`0 <= h <= 23` and `0 <= m <= 59`. -/
def py_time (h m : Nat) : Except PyErr Nat :=
  if h ≤ 23 ∧ m ≤ 59 then .ok (time_of_day h m) else .error .valueError

/-- Embedding of `HappyHourVenue._parse_happy_hour_times`
(tracker.py lines 84-107).  `.ok none` is the `(None, None)` no-match result;
`.error .valueError` is an out-of-range `time(...)` construction. -/
def parse_happy_hour_times (s : String) : Except PyErr (Option (Nat × Nat)) :=
  match search_from s.data with
  | none => .ok none
  | some r =>
    match py_time (to_24 r.h1 r.p1) r.m1 with
    | .error e => .error e
    | .ok start_time =>
      match py_time (to_24 r.h2 r.p2) r.m2 with
      | .error e => .error e
      | .ok end_time => .ok (some (start_time, end_time))

/-- Embedding of the `HappyHourVenue` record. -/
structure HappyHourVenue where
  name : String
  neighborhood : String
  happy_hour_days : String
  happy_hour_times : String
  rating : Rat
  offers : String
deriving DecidableEq

/-- Embedding of `HappyHourVenue.is_open_now` (tracker.py lines 44-59) with the
reference instant passed explicitly.  The day rule is checked first; a parse
failure (`.ok none`) yields `False`; otherwise the range test is inclusive on
both ends.  Python ≥ 3.5 `time` objects are always truthy, so
`if start_time and end_time` succeeds exactly when parsing returned times. -/
def is_open_now (v : HappyHourVenue) (current_day : Nat) (current_time : Nat) :
    Except PyErr Bool :=
  if is_valid_day v.happy_hour_days current_day then
    match parse_happy_hour_times v.happy_hour_times with
    | .error e => .error e
    | .ok none => .ok false
    | .ok (some (start_time, end_time)) =>
      .ok (decide (start_time ≤ current_time ∧ current_time ≤ end_time))
  else
    .ok false

/-- Embedding of `HappyHourTracker._find_venue` (tracker.py lines 218-223):
first case-insensitive name match, if any. -/
def find_venue : List HappyHourVenue → String → Option HappyHourVenue
  | [], _ => none
  | v :: vs, venue_name =>
    if str_lower v.name = str_lower venue_name then some v
    else find_venue vs venue_name

/-- Embedding of `HappyHourTracker.add_venue` (tracker.py lines 169-187).
The store state is the venue list; the result pairs the returned boolean with
the state after the call (Python mutates `self.venues` in place and re-saves;
the persisted content is always `save_data` of the returned state). -/
def add_venue (venues : List HappyHourVenue)
    (name neighborhood happy_hour_days happy_hour_times : String)
    (rating : Rat) (offers : String) : Bool × List HappyHourVenue :=
  if ∃ v ∈ venues, str_lower v.name = str_lower name then (false, venues)
  else if ¬ (1 ≤ rating ∧ rating ≤ 5) then (false, venues)
  else (true, venues ++ [⟨name, neighborhood, happy_hour_days, happy_hour_times, rating, offers⟩])

/-- In-place mutation `venue.rating = new_rating` of the first venue found by
`_find_venue`: replace the rating of the first case-insensitive name match. -/
def set_rating_first : List HappyHourVenue → String → Rat → List HappyHourVenue
  | [], _, _ => []
  | v :: vs, venue_name, new_rating =>
    if str_lower v.name = str_lower venue_name then { v with rating := new_rating } :: vs
    else v :: set_rating_first vs venue_name new_rating

/-- Embedding of `HappyHourTracker.update_rating` (tracker.py lines 189-204):
not-found and out-of-bounds checks happen before any mutation. -/
def update_rating (venues : List HappyHourVenue) (venue_name : String)
    (new_rating : Rat) : Bool × List HappyHourVenue :=
  match find_venue venues venue_name with
  | none => (false, venues)
  | some _ =>
    if ¬ (1 ≤ new_rating ∧ new_rating ≤ 5) then (false, venues)
    else (true, set_rating_first venues venue_name new_rating)

/-- Embedding of `self.venues.remove(venue)` where `venue` is the object
`_find_venue` returned: with default (identity) equality this deletes exactly
the first case-insensitive name match. -/
def remove_first : List HappyHourVenue → String → List HappyHourVenue
  | [], _ => []
  | v :: vs, venue_name =>
    if str_lower v.name = str_lower venue_name then vs
    else v :: remove_first vs venue_name

/-- Embedding of `HappyHourTracker.delete_venue` (tracker.py lines 206-216). -/
def delete_venue (venues : List HappyHourVenue) (venue_name : String) :
    Bool × List HappyHourVenue :=
  match find_venue venues venue_name with
  | none => (false, venues)
  | some _ => (true, remove_first venues venue_name)

/-- One step of Python's stable sort in descending-by-rating order: insert `v`
(a later element) behind every already-placed element whose rating is at least
`v.rating`. -/
def insert_desc (v : HappyHourVenue) : List HappyHourVenue → List HappyHourVenue
  | [] => [v]
  | w :: ws => if w.rating < v.rating then v :: w :: ws else w :: insert_desc v ws

/-- Embedding of `sorted(l, key=lambda v: v.rating, reverse=True)`: Python's
sort is stable, and `reverse=True` keeps equal-key elements in their original
order. -/
def sort_by_rating_desc (l : List HappyHourVenue) : List HappyHourVenue :=
  l.foldl (fun acc v => insert_desc v acc) []

/-- Embedding of `HappyHourTracker.get_venues_by_rating`
(tracker.py lines 229-232). -/
def get_venues_by_rating (venues : List HappyHourVenue) (min_rating : Rat) :
    List HappyHourVenue :=
  sort_by_rating_desc (venues.filter (fun v => decide (min_rating ≤ v.rating)))

/-- The four sample venues of `_create_sample_data` (tracker.py lines
155-167).  Ratings are written `mkRat n 10`, the exact value of the decimal
literal `n/10` in the source (kernel-reducible, unlike `OfScientific`
literals). -/
def castas : HappyHourVenue :=
  ⟨"Castas Rum Bar", "Foggy Bottom", "Mon-Fri", "5:00 PM - 7:00 PM",
   mkRat 45 10, "$5 beer, $10 mojitos & frozens, $40 pitchers"⟩

/-- Sample venue two (rating 4.2). -/
def georgetown_piano_bar : HappyHourVenue :=
  ⟨"Georgetown Piano Bar", "Georgetown", "Wed-Sun", "5:00 PM - 7:00 PM",
   mkRat 42 10, "Half price appetizers, $5 draft beer"⟩

/-- Sample venue three (rating 4.3). -/
def bar_chinois : HappyHourVenue :=
  ⟨"Bar Chinois", "Chinatown", "Mon-Sun", "5:00 PM - 7:00 PM",
   mkRat 43 10, "$1 dumplings, discounted cocktails"⟩

/-- Sample venue four (rating 4.7). -/
def silver_diner : HappyHourVenue :=
  ⟨"Silver Diner", "Navy Yard", "Mon-Sun", "3:00 PM - 9:00 PM",
   mkRat 47 10, "$4 beers, , $7 wines, $8 cocktails"⟩

/-- The sample list, in insertion order (ratings 4.5, 4.2, 4.3, 4.7). -/
def sample_venues : List HappyHourVenue :=
  [castas, georgetown_piano_bar, bar_chinois, silver_diner]

/-- Structured JSON values, the persisted content (indentation is cosmetic). -/
inductive Jval where
  | str (s : String)
  | num (q : Rat)
  | arr (l : List Jval)
  | obj (fields : List (String × Jval))

/-- Embedding of `HappyHourVenue.to_dict` (tracker.py lines 22-31):
the six keys in their fixed order. -/
def to_dict (v : HappyHourVenue) : Jval :=
  .obj [("name", .str v.name), ("neighborhood", .str v.neighborhood),
        ("happy_hour_days", .str v.happy_hour_days),
        ("happy_hour_times", .str v.happy_hour_times),
        ("rating", .num v.rating), ("offers", .str v.offers)]

/-- Embedding of `HappyHourTracker.save_data` (tracker.py lines 146-153):
the structured content `json.dump` writes. -/
def save_data (venues : List HappyHourVenue) : Jval :=
  .arr (venues.map to_dict)

/-- Python subscription `data[key]` on a dict: `KeyError` when the key is
missing, `TypeError` when the value is not a dict. -/
def j_get (data : Jval) (key : String) : Except PyErr Jval :=
  match data with
  | .obj fields =>
    match fields.find? (fun p => p.1 == key) with
    | some p => .ok p.2
    | none => .error .keyError
  | _ => .error .typeError

/-- Extract a string payload (venue fields are strings in well-formed content). -/
def j_str : Jval → Except PyErr String
  | .str s => .ok s
  | _ => .error .typeError

/-- Extract a numeric payload. -/
def j_num : Jval → Except PyErr Rat
  | .num q => .ok q
  | _ => .error .typeError

/-- The body of `HappyHourVenue.from_dict` (tracker.py lines 33-42), as it
would run if it were actually entered with a `cls` and a `data` argument:
subscript the six keys in order and build the venue. -/
def from_dict_body (cls data : Jval) : Except PyErr HappyHourVenue := do
  let _ := cls
  let name ← j_str (← j_get data "name")
  let neighborhood ← j_str (← j_get data "neighborhood")
  let happy_hour_days ← j_str (← j_get data "happy_hour_days")
  let happy_hour_times ← j_str (← j_get data "happy_hour_times")
  let rating ← j_num (← j_get data "rating")
  let offers ← j_str (← j_get data "offers")
  pure ⟨name, neighborhood, happy_hour_days, happy_hour_times, rating, offers⟩

/-- Calling `HappyHourVenue.from_dict` with an argument list.  `from_dict` is
declared `def from_dict(cls, data)` WITHOUT `@classmethod` (tracker.py line
33), so the attribute lookup yields the plain two-parameter function and
Python raises `TypeError` unless exactly two positional arguments arrive. -/
def call_from_dict (args : List Jval) : Except PyErr HappyHourVenue :=
  match args with
  | [cls, data] => from_dict_body cls data
  | _ => .error .typeError

/-- Python iteration over a loaded JSON value (`for venue_data in data`):
lists yield their elements, dicts their keys, strings their characters,
numbers raise `TypeError`. -/
def py_iter : Jval → Except PyErr (List Jval)
  | .arr l => .ok l
  | .obj fields => .ok (fields.map (fun p => .str p.1))
  | .str s => .ok (s.data.map (fun c => .str (String.mk [c])))
  | .num _ => .error .typeError

/-- The list comprehension of `load_data` (tracker.py line 136): the call site
passes `venue_data` as the ONLY argument of `from_dict`. -/
def load_venues (data : Jval) : Except PyErr (List HappyHourVenue) := do
  let items ← py_iter data
  items.mapM (fun venue_data => call_from_dict [venue_data])

/-- The three conditions `load_data` can find the data file in. -/
inductive FileState where
  | missing
  | unparseable
  | parsed (j : Jval)

/-- Embedding of `HappyHourTracker.load_data` (tracker.py lines 130-144):
a missing file seeds the sample data; a file `json.load` cannot parse raises
`JSONDecodeError`, which is caught (as is `KeyError`), leaving the store
empty; every other exception propagates and aborts the process. -/
def load_data (fs : FileState) : Except PyErr (List HappyHourVenue) :=
  match fs with
  | .missing => .ok sample_venues
  | .unparseable => .ok []
  | .parsed data =>
    match load_venues data with
    | .error .keyError => .ok []
    | .error .decodeError => .ok []
    | r => r

/-- Helper: full specification of `add_venue` — the returned flag is true
exactly when the rating is in bounds and no case-insensitive duplicate name
exists, and the state is appended to on success and untouched on failure. -/
theorem add_venue_spec (venues : List HappyHourVenue)
    (name neighborhood happy_hour_days happy_hour_times : String)
    (rating : Rat) (offers : String) :
    ((add_venue venues name neighborhood happy_hour_days happy_hour_times rating offers).1 = true ↔
      ((1 ≤ rating ∧ rating ≤ 5) ∧ ¬ ∃ v ∈ venues, str_lower v.name = str_lower name)) ∧
    (add_venue venues name neighborhood happy_hour_days happy_hour_times rating offers).2 =
      (bif (add_venue venues name neighborhood happy_hour_days happy_hour_times rating offers).1
       then venues ++ [⟨name, neighborhood, happy_hour_days, happy_hour_times, rating, offers⟩]
       else venues) := by
  unfold add_venue
  by_cases hdup : ∃ v ∈ venues, str_lower v.name = str_lower name
  · rw [if_pos hdup]
    simp [hdup]
  · rw [if_neg hdup]
    by_cases hr : 1 ≤ rating ∧ rating ≤ 5
    · rw [if_neg (not_not_intro hr)]
      simp [hdup, hr]
    · rw [if_pos hr]
      simp [hdup, hr]

/-- Helper: membership in an `insert_desc` result. -/
theorem insert_desc_mem (v x : HappyHourVenue) (l : List HappyHourVenue) :
    x ∈ insert_desc v l ↔ x = v ∨ x ∈ l := by
  induction l with
  | nil => simp [insert_desc]
  | cons w ws ih =>
    by_cases hc : w.rating < v.rating
    · simp only [insert_desc, if_pos hc, List.mem_cons]
    · simp only [insert_desc, if_neg hc, List.mem_cons, ih]
      tauto

/-- Helper: `insert_desc` preserves the descending-by-rating invariant. -/
theorem insert_desc_pairwise (v : HappyHourVenue) (l : List HappyHourVenue)
    (h : l.Pairwise (fun a b => b.rating ≤ a.rating)) :
    (insert_desc v l).Pairwise (fun a b => b.rating ≤ a.rating) := by
  induction l with
  | nil => simp [insert_desc]
  | cons w ws ih =>
    rw [List.pairwise_cons] at h
    by_cases hc : w.rating < v.rating
    · simp only [insert_desc, if_pos hc]
      refine List.Pairwise.cons ?_ (List.Pairwise.cons h.1 h.2)
      intro x hx
      rcases List.mem_cons.mp hx with rfl | hx'
      · exact le_of_lt hc
      · exact le_trans (h.1 x hx') (le_of_lt hc)
    · simp only [insert_desc, if_neg hc]
      refine List.Pairwise.cons ?_ (ih h.2)
      intro x hx
      rcases (insert_desc_mem v x ws).mp hx with rfl | hx'
      · exact not_lt.mp hc
      · exact h.1 x hx'

/-- Helper: stability of one insertion step.  Inserting a later element into a
sorted accumulator keeps the subsequence of any fixed rating intact, with the
new element at its end. -/
theorem insert_desc_filter (r : Rat) (v : HappyHourVenue) (l : List HappyHourVenue)
    (h : l.Pairwise (fun a b => b.rating ≤ a.rating)) :
    (insert_desc v l).filter (fun x => decide (x.rating = r)) =
      l.filter (fun x => decide (x.rating = r)) ++ (if v.rating = r then [v] else []) := by
  induction l with
  | nil =>
    by_cases hv : v.rating = r <;> simp [insert_desc, hv]
  | cons w ws ih =>
    rw [List.pairwise_cons] at h
    by_cases hc : w.rating < v.rating
    · simp only [insert_desc, if_pos hc]
      by_cases hv : v.rating = r
      · have hub : ∀ x ∈ w :: ws, x.rating < v.rating := by
          intro x hx
          rcases List.mem_cons.mp hx with rfl | hx'
          · exact hc
          · exact lt_of_le_of_lt (h.1 x hx') hc
        have hnil : (w :: ws).filter (fun x => decide (x.rating = r)) = [] := by
          rw [List.filter_eq_nil_iff]
          intro x hx
          simp only [decide_eq_true_eq]
          exact fun hxr => ne_of_lt (hv ▸ hub x hx) hxr
        rw [List.filter_cons_of_pos (by simp [hv]), hnil, if_pos hv]
        simp
      · rw [List.filter_cons_of_neg (by simp [hv]), if_neg hv, List.append_nil]
    · simp only [insert_desc, if_neg hc]
      by_cases hw : w.rating = r
      · rw [List.filter_cons_of_pos (by simp [hw]), List.filter_cons_of_pos (by simp [hw]),
          ih h.2, List.cons_append]
      · rw [List.filter_cons_of_neg (by simp [hw]), List.filter_cons_of_neg (by simp [hw]),
          ih h.2]

/-- Helper: the insertion fold keeps the accumulator sorted. -/
theorem sort_aux_pairwise (l : List HappyHourVenue) :
    ∀ acc, acc.Pairwise (fun a b => b.rating ≤ a.rating) →
      (l.foldl (fun acc v => insert_desc v acc) acc).Pairwise
        (fun a b => b.rating ≤ a.rating) := by
  induction l with
  | nil => intro acc h; simpa using h
  | cons v vs ih =>
    intro acc h
    rw [List.foldl_cons]
    exact ih _ (insert_desc_pairwise v acc h)

/-- Helper: stability of the insertion fold, phrased per rating value. -/
theorem sort_aux_filter (r : Rat) (l : List HappyHourVenue) :
    ∀ acc, acc.Pairwise (fun a b => b.rating ≤ a.rating) →
      (l.foldl (fun acc v => insert_desc v acc) acc).filter (fun x => decide (x.rating = r)) =
        acc.filter (fun x => decide (x.rating = r)) ++
          l.filter (fun x => decide (x.rating = r)) := by
  induction l with
  | nil => intro acc h; simp
  | cons v vs ih =>
    intro acc h
    rw [List.foldl_cons, ih _ (insert_desc_pairwise v acc h), insert_desc_filter r v acc h,
      List.filter_cons]
    by_cases hv : v.rating = r
    · simp [hv]
    · simp [hv]

/-- Helper: the sort produces a descending-by-rating list. -/
theorem sort_by_rating_desc_pairwise (l : List HappyHourVenue) :
    (sort_by_rating_desc l).Pairwise (fun a b => b.rating ≤ a.rating) :=
  sort_aux_pairwise l [] (by simp)

/-- Helper: the sort is stable — for every rating value, the subsequence of
elements carrying that rating is exactly the one of the input list. -/
theorem sort_by_rating_desc_filter (r : Rat) (l : List HappyHourVenue) :
    (sort_by_rating_desc l).filter (fun x => decide (x.rating = r)) =
      l.filter (fun x => decide (x.rating = r)) := by
  have h := sort_aux_filter r l [] (by simp)
  simpa [sort_by_rating_desc] using h

/-- C1: for every venue record and reference instant, `is_open_now` fails
closed — it returns `False` when the day rule does not match the reference
weekday, and when the time-range text does not parse; and when the day rule
matches and the text parses to a start time and an end time, it returns `True`
exactly when `start_time <= current_time <= end_time`, inclusive on both ends. -/
theorem spec_c1 (v : HappyHourVenue) (current_day current_time : Nat) :
    (is_valid_day v.happy_hour_days current_day = false →
      is_open_now v current_day current_time = .ok false) ∧
    (parse_happy_hour_times v.happy_hour_times = .ok none →
      is_open_now v current_day current_time = .ok false) ∧
    (∀ start_time end_time,
      is_valid_day v.happy_hour_days current_day = true →
      parse_happy_hour_times v.happy_hour_times = .ok (some (start_time, end_time)) →
      (is_open_now v current_day current_time = .ok true ↔
        (start_time ≤ current_time ∧ current_time ≤ end_time))) := by
  refine ⟨?_, ?_, ?_⟩
  · intro h
    simp [is_open_now, h]
  · intro h
    by_cases hd : is_valid_day v.happy_hour_days current_day
    · simp [is_open_now, hd, h]
    · simp [is_open_now, hd]
  · intro s e hd hp
    simp [is_open_now, hd, hp]

/-- C1 witness: the Castas Rum Bar sample on a Monday exactly at its start
time 5:00 PM is open (the boundary instant counts as open). -/
theorem spec_c1_witness :
    is_open_now castas 0 (time_of_day 17 0) = .ok true := by
  have h := (spec_c1 castas 0 (time_of_day 17 0)).2.2 (time_of_day 17 0) (time_of_day 19 0)
    (by rfl) (by rfl)
  exact h.mpr (by decide)

/-- C2: time parsing takes the first substring matching the
`H:MM AM|PM - H:MM AM|PM` pattern and converts each half to 24-hour form
(hour 12 on AM becomes 0; PM adds 12 unless the hour is already 12):
"4:00 PM - 7:00 PM" gives 16:00-19:00, "12:00 AM - 1:00 AM" gives 00:00-01:00,
an unmatched text gives a parse failure, a multi-range text is decided by its
leftmost match, and hyphen whitespace is optional. -/
theorem spec_c2 :
    parse_happy_hour_times "4:00 PM - 7:00 PM" =
      .ok (some (time_of_day 16 0, time_of_day 19 0)) ∧
    parse_happy_hour_times "12:00 AM - 1:00 AM" =
      .ok (some (time_of_day 0 0, time_of_day 1 0)) ∧
    parse_happy_hour_times "Call for hours" = .ok none ∧
    parse_happy_hour_times "Happy hour 4:00PM-7:00PM daily, brunch 10:00 AM - 1:00 PM" =
      .ok (some (time_of_day 16 0, time_of_day 19 0)) ∧
    to_24 12 Period.am = 0 ∧ to_24 1 Period.am = 1 ∧
    to_24 4 Period.pm = 16 ∧ to_24 12 Period.pm = 12 :=
  ⟨rfl, rfl, rfl, rfl, rfl, rfl, rfl, rfl⟩

/-- C3: day-rule matching checks its rules in fixed order and the first match
wins — "Mon-Fri, Sat" matches exactly the weekdays 0-4 for every weekday
(rule 1 beats the later "sat" substring, wherever it stands in the text),
"daily" always matches, "weekend" matches exactly 5 and 6, a plain
abbreviation matches exactly its mapped weekday, and unmatched text matches
nothing. -/
theorem spec_c3 :
    (∀ day : Nat, is_valid_day "Mon-Fri, Sat" day = decide (0 ≤ day ∧ day ≤ 4)) ∧
    is_valid_day "Sat & Mon-Fri" 5 = false ∧
    is_valid_day "Daily" 5 = true ∧
    is_valid_day "Weekend" 5 = true ∧ is_valid_day "Weekend" 6 = true ∧
    is_valid_day "Weekend" 0 = false ∧
    is_valid_day "Wed-Sun" 2 = true ∧ is_valid_day "Wed-Sun" 6 = true ∧
    is_valid_day "Wed-Sun" 4 = false ∧
    is_valid_day "Call for details" 0 = false :=
  ⟨fun _ => rfl, rfl, rfl, rfl, rfl, rfl, rfl, rfl, rfl, rfl⟩

/-- C4: `add_venue` succeeds exactly when the rating lies in [1.0, 5.0] and no
existing record has the same name case-insensitively; on success the new
record is appended (and the persisted content is `save_data` of the returned
state), otherwise the state is returned unchanged with a failure flag. -/
theorem spec_c4 (venues : List HappyHourVenue)
    (name neighborhood happy_hour_days happy_hour_times : String)
    (rating : Rat) (offers : String) :
    ((add_venue venues name neighborhood happy_hour_days happy_hour_times rating offers).1 = true ↔
      ((1 ≤ rating ∧ rating ≤ 5) ∧ ¬ ∃ v ∈ venues, str_lower v.name = str_lower name)) ∧
    (add_venue venues name neighborhood happy_hour_days happy_hour_times rating offers).2 =
      (bif (add_venue venues name neighborhood happy_hour_days happy_hour_times rating offers).1
       then venues ++ [⟨name, neighborhood, happy_hour_days, happy_hour_times, rating, offers⟩]
       else venues) :=
  add_venue_spec venues name neighborhood happy_hour_days happy_hour_times rating offers

/-- C5 (code bug): the round trip `save(load(save V))` cannot hold because
loading any saved file with at least one record aborts — `from_dict` lacks
`@classmethod`, so the call `HappyHourVenue.from_dict(venue_data)` binds the
dict to `cls`, omits `data`, and raises a `TypeError` that the
`except (JSONDecodeError, KeyError)` clause does not catch.  Loading the save
of the single-record set `[castas]` therefore raises instead of reproducing
the content. -/
theorem spec_c5_bug :
    save_data [castas] = Jval.arr [to_dict castas] ∧
    load_data (FileState.parsed (save_data [castas])) = .error PyErr.typeError :=
  ⟨rfl, rfl⟩

/-- C6: `get_venues_by_rating` returns exactly the records with rating at
least the threshold, in descending rating order, ties kept in insertion
order: the output is pairwise descending, the subsequence at every fixed
rating value equals the one of the threshold-filtered input (which pins the
output down as the unique stable descending reordering), and the sample list
with ratings [4.5, 4.2, 4.3, 4.7] queried at 4.5 yields the 4.7 record then
the 4.5 record. -/
theorem spec_c6 (venues : List HappyHourVenue) (min_rating : Rat) :
    (get_venues_by_rating venues min_rating).Pairwise (fun a b => b.rating ≤ a.rating) ∧
    (∀ r : Rat, (get_venues_by_rating venues min_rating).filter (fun x => decide (x.rating = r)) =
      (venues.filter (fun x => decide (min_rating ≤ x.rating))).filter
        (fun x => decide (x.rating = r))) ∧
    get_venues_by_rating sample_venues (4.5 : Rat) = [silver_diner, castas] := by
  refine ⟨sort_by_rating_desc_pairwise _, fun r => sort_by_rating_desc_filter r _, ?_⟩
  rw [show (4.5 : Rat) = mkRat 45 10 from by norm_num]
  decide

/-- C7: whenever `add_venue`, `update_rating` or `delete_venue` reports
failure, the venue collection is returned unchanged. -/
theorem spec_c7 (venues : List HappyHourVenue)
    (name neighborhood happy_hour_days happy_hour_times offers : String) (r : Rat) :
    ((add_venue venues name neighborhood happy_hour_days happy_hour_times r offers).1 = false →
      (add_venue venues name neighborhood happy_hour_days happy_hour_times r offers).2 =
        venues) ∧
    ((update_rating venues name r).1 = false → (update_rating venues name r).2 = venues) ∧
    ((delete_venue venues name).1 = false → (delete_venue venues name).2 = venues) := by
  refine ⟨?_, ?_, ?_⟩
  · by_cases hdup : ∃ v ∈ venues, str_lower v.name = str_lower name
    · simp [add_venue, hdup]
    · by_cases hr : 1 ≤ r ∧ r ≤ 5
      · simp [add_venue, hdup, hr]
      · simp [add_venue, hdup, hr]
  · rcases hfv : find_venue venues name with _ | v
    · simp [update_rating, hfv]
    · by_cases hr : 1 ≤ r ∧ r ≤ 5
      · simp [update_rating, hfv, hr]
      · simp [update_rating, hfv, hr]
  · rcases hfv : find_venue venues name with _ | v
    · simp [delete_venue, hfv]
    · simp [delete_venue, hfv]

/-- C7 witness: `update_rating "Silver Diner" 6.0` on the sample data fails,
leaves the collection unchanged, and Silver Diner's rating is still 4.7. -/
theorem spec_c7_witness :
    (update_rating sample_venues "Silver Diner" 6.0).1 = false ∧
    (update_rating sample_venues "Silver Diner" 6.0).2 = sample_venues ∧
    silver_diner.rating = 4.7 := by
  have h6 : (6.0 : Rat) = mkRat 6 1 := by norm_num
  refine ⟨?_, (spec_c7 sample_venues "Silver Diner" "" "" "" "" 6.0).2.1 ?_, ?_⟩
  · rw [h6]; decide
  · rw [h6]; decide
  · show mkRat 47 10 = (4.7 : Rat)
    norm_num

/-- C8 counterexample: the claim that an empty name makes `add_venue` fail is
false — on the empty store, adding a venue named `""` with a valid rating
succeeds and appends the record.  (The empty-field check lives only in the
interactive prompt `_add_venue_interactive`, not in the store operation.) -/
theorem spec_c8_counterexample :
    add_venue [] "" "Anywhere" "Mon-Fri" "4:00 PM - 7:00 PM" 3 "free snacks" =
      (true, [⟨"", "Anywhere", "Mon-Fri", "4:00 PM - 7:00 PM", 3, "free snacks"⟩]) := by
  decide

/-- C8 as amended: `add_venue` performs no emptiness validation — with an
empty name it behaves like any other add, succeeding exactly when the rating
is in [1.0, 5.0] and no existing record's lowercased name is the empty
string, and appending the empty-named record on success. -/
theorem spec_c8_amended (venues : List HappyHourVenue)
    (neighborhood happy_hour_days happy_hour_times : String)
    (rating : Rat) (offers : String) :
    ((add_venue venues "" neighborhood happy_hour_days happy_hour_times rating offers).1 = true ↔
      ((1 ≤ rating ∧ rating ≤ 5) ∧ ¬ ∃ v ∈ venues, str_lower v.name = str_lower "")) ∧
    (add_venue venues "" neighborhood happy_hour_days happy_hour_times rating offers).2 =
      (bif (add_venue venues "" neighborhood happy_hour_days happy_hour_times rating offers).1
       then venues ++ [⟨"", neighborhood, happy_hour_days, happy_hour_times, rating, offers⟩]
       else venues) :=
  add_venue_spec venues "" neighborhood happy_hour_days happy_hour_times rating offers

/-- C9 (code bug): a missing file seeds the sample data, and top-level
malformed content (a `JSONDecodeError`) is caught, leaving the store empty
without reseeding — but content holding any record at all, malformed or not,
raises an uncaught `TypeError` (the `from_dict` arity slip) and aborts the
process instead of failing the load into an empty store. -/
theorem spec_c9_bug :
    load_data FileState.unparseable = .ok [] ∧
    load_data FileState.missing = .ok sample_venues ∧
    load_data (FileState.parsed (Jval.arr
      [to_dict castas, Jval.obj [("name", Jval.str "Broken Venue")]])) =
      .error PyErr.typeError :=
  ⟨rfl, rfl, rfl⟩

/-- Venue used to exercise a happy-hour window that starts exactly at
midnight. -/
def midnight_bar : HappyHourVenue :=
  ⟨"Midnight Bar", "Anywhere", "Daily", "12:00 AM - 1:00 AM", 4.0, "late night specials"⟩

/-- C10 counterexample: a venue whose time text parses to a start of exactly
00:00 is NOT always closed — on Python 3, `time(0, 0)` is truthy, so at
00:30 on a matching day the predicate returns `True`. -/
theorem spec_c10_counterexample :
    parse_happy_hour_times midnight_bar.happy_hour_times =
      .ok (some (time_of_day 0 0, time_of_day 1 0)) ∧
    is_valid_day midnight_bar.happy_hour_days 0 = true ∧
    is_open_now midnight_bar 0 (time_of_day 0 30) = .ok true :=
  ⟨rfl, rfl, rfl⟩

/-- C10 as amended: a parsed start time of exactly 00:00 is handled like any
other start time — when the day rule matches, the venue is open exactly when
`current_time <= end_time` (the lower bound holds vacuously).  Python ≥ 3.5
`time` objects are always truthy, so `if start_time and end_time` does not
reject midnight. -/
theorem spec_c10_amended (v : HappyHourVenue) (current_day current_time e : Nat)
    (hday : is_valid_day v.happy_hour_days current_day = true)
    (hparse : parse_happy_hour_times v.happy_hour_times = .ok (some (0, e))) :
    is_open_now v current_day current_time = .ok (decide (current_time ≤ e)) := by
  simp [is_open_now, hday, hparse, Nat.zero_le]

/-- C10 witness: the midnight-start venue at 00:30 on a Monday evaluates via
the amended rule to open. -/
theorem spec_c10_witness :
    is_open_now midnight_bar 0 1800 = .ok (decide (1800 ≤ 3600)) :=
  spec_c10_amended midnight_bar 0 1800 3600 rfl rfl
